import Mathlib

/-!
Shallow embedding of the round-completion core of the `interviewer` backend.

The entity store (Peewee/SQLite tables `rooms`, `sessions`, `rounds`,
`question_answers` from `backend/models/models.py`) is modelled as lists of
records in insertion order; Peewee queries (`find`/`filter`/`count`) become
list operations.  The round-lifecycle operations come from
`backend/services/interview_service.py`,
`backend/services/question/answer_handler.py` and
`backend/controllers/question_controller.py`; the completion webhook from
`backend/controllers/api_controller.py`.  The `RoundCompletion` table and the
`RoundCompletionService` are referenced by the webhook controller but their
definitions are not part of the source tree; these are modelled from the
specification and marked as such in their doc comments.
-/

namespace Interviewer

/-- `rooms` table row (models.py: class Room). -/
structure Room where
  id : String
  memory_id : String
  name : String
deriving DecidableEq, Repr

/-- `sessions` table row (models.py: class Session); `status` is one of
"active", "completed", "paused" and defaults to "active". -/
structure Session where
  id : String
  name : String
  room_id : String
  status : String
deriving DecidableEq, Repr

/-- `rounds` table row (models.py: class Round). -/
structure Round where
  id : String
  session_id : String
  round_index : Nat
  questions_count : Nat
  questions_file_path : String
  round_type : String
  current_question_index : Nat
  status : String
deriving DecidableEq, Repr

/-- `question_answers` table row (models.py: class QuestionAnswer). -/
structure QuestionAnswer where
  id : String
  round_id : String
  question_index : Nat
  question_text : String
  answer_text : Option String
  question_category : Option String
  is_answered : Bool
deriving DecidableEq, Repr

/-- Arbitrary JSON value carried by the webhook payload.  Python `float` is
not modelled; no behaviour under scrutiny depends on it. -/
inductive JVal where
  | null : JVal
  | b (v : Bool) : JVal
  | s (v : String) : JVal
  | i (v : Int) : JVal
  | arr (v : List JVal) : JVal
  | obj (v : List (String × JVal)) : JVal

/-- Modelled from the spec: `RoundCompletion` row — "a durable record of an
externally confirmed completion event for a (Session, round_index) pair.
Attributes: id, owning Session, round_index, idempotency_key (unique),
arbitrary QA payload, occurred_at timestamp."  The table is absent from the
source tree (only the webhook controller references it). -/
structure RoundCompletion where
  id : String
  session_id : String
  round_index : Int
  idempotency_key : String
  qa_object : JVal
  occurred_at : String

/-- The relational store: one list per table, rows in insertion order. -/
structure Store where
  rooms : List Room
  sessions : List Session
  rounds : List Round
  question_answers : List QuestionAnswer
  completions : List RoundCompletion

/-- The freshly created database (create_tables makes empty tables). -/
def init_store : Store :=
  { rooms := [], sessions := [], rounds := [], question_answers := [], completions := [] }

/-- Peewee `instance.save()` on a fetched row: replace the row whose key
matches; all other rows are untouched. -/
def save_row {α : Type} (key : α → String) (k : String) (r' : α) (l : List α) : List α :=
  l.map (fun r => if key r == k then r' else r)

namespace SessionService

/-- interview_service.py `SessionService.get_session`: `Session.get_by_id`,
`None` when absent. -/
def get_session (st : Store) (session_id : String) : Option Session :=
  st.sessions.find? (fun s => s.id == session_id)

/-- interview_service.py `SessionService.create_session`: requires the room
to exist, then inserts a session with default status "active". -/
def create_session (st : Store) (room_id : String) (name : String)
    (new_id : String) : Option Session × Store :=
  match st.rooms.find? (fun r => r.id == room_id) with
  | none => (none, st)
  | some room =>
    let s : Session := { id := new_id, name := name, room_id := room.id, status := "active" }
    (some s, { st with sessions := st.sessions ++ [s] })

/-- interview_service.py `SessionService.update_session_status`. -/
def update_session_status (st : Store) (session_id : String) (status : String) :
    Bool × Store :=
  match get_session st session_id with
  | none => (false, st)
  | some s =>
    (true, { st with sessions := save_row Session.id session_id { s with status := status } st.sessions })

end SessionService

namespace RoundService

/-- interview_service.py `RoundService.get_round`. -/
def get_round (st : Store) (round_id : String) : Option Round :=
  st.rounds.find? (fun r => r.id == round_id)

/-- interview_service.py `RoundService.create_round`: requires the session to
exist; `round_index := session.rounds.count()` at call time. -/
def create_round (st : Store) (session_id : String) (questions : List String)
    (round_type : String) (new_id : String) : Option Round × Store :=
  match SessionService.get_session st session_id with
  | none => (none, st)
  | some session =>
    let round_index := (st.rounds.filter (fun r => r.session_id == session.id)).length
    let path := "data/questions_round_" ++ toString round_index ++ "_" ++ session_id ++ ".json"
    let r : Round :=
      { id := new_id, session_id := session.id, round_index := round_index,
        questions_count := questions.length, questions_file_path := path,
        round_type := round_type, current_question_index := 0, status := "active" }
    (some r, { st with rounds := st.rounds ++ [r] })

/-- interview_service.py `RoundService.delete_round`: fetches the round and
calls `delete_instance()` — only the round row itself is removed. -/
def delete_round (st : Store) (round_id : String) : Bool × Store :=
  match st.rounds.find? (fun r => r.id == round_id) with
  | none => (false, st)
  | some _ =>
    (true, { st with rounds := st.rounds.filter (fun r => r.id != round_id) })

end RoundService

namespace SessionService

/-- interview_service.py `SessionService.delete_session`: loops over the
session's rounds calling `RoundService.delete_round`, then deletes the
session row. -/
def delete_session (st : Store) (session_id : String) : Bool × Store :=
  match st.sessions.find? (fun s => s.id == session_id) with
  | none => (false, st)
  | some s =>
    let rids := (st.rounds.filter (fun r => r.session_id == s.id)).map (fun r => r.id)
    let st1 := rids.foldl (fun acc rid => (RoundService.delete_round acc rid).2) st
    (true, { st1 with sessions := st1.sessions.filter (fun x => x.id != session_id) })

end SessionService

namespace RoomService

/-- interview_service.py `RoomService.create_room`. -/
def create_room (st : Store) (new_id : String) (memory_id : String) (name : String) :
    Room × Store :=
  let room : Room := { id := new_id, memory_id := memory_id, name := name }
  (room, { st with rooms := st.rooms ++ [room] })

/-- interview_service.py `RoomService.delete_room`: loops over the room's
sessions calling `SessionService.delete_session`, then deletes the room row. -/
def delete_room (st : Store) (room_id : String) : Bool × Store :=
  match st.rooms.find? (fun r => r.id == room_id) with
  | none => (false, st)
  | some room =>
    let sids := (st.sessions.filter (fun s => s.room_id == room.id)).map (fun s => s.id)
    let st1 := sids.foldl (fun acc sid => (SessionService.delete_session acc sid).2) st
    (true, { st1 with rooms := st1.rooms.filter (fun r => r.id != room_id) })

end RoomService

namespace AnswerHandler

/-- question_service.py `_create_question_answer_records`, one record:
`QuestionAnswer.create(...)` with `is_answered=False`. -/
def create_question_answer (st : Store) (new_id : String) (round_id : String)
    (question_index : Nat) (question_text : String) (category : Option String) : Store :=
  { st with question_answers := st.question_answers ++
      [{ id := new_id, round_id := round_id, question_index := question_index,
         question_text := question_text, answer_text := none,
         question_category := category, is_answered := false }] }

/-- Result of `save_answer`: the dict it returns, or the caught-exception
failure dict (`success: False`). -/
inductive SaveResult where
  | ok (is_round_completed : Bool) (remaining_questions : Nat) : SaveResult
  | failure : SaveResult
deriving DecidableEq, Repr

/-- answer_handler.py `AnswerHandler.save_answer` (identical logic in
question_service.py `QuestionGenerationService.save_answer`):
marks the QuestionAnswer answered, sets the round's
`current_question_index := qa.question_index + 1`, recounts the remaining
unanswered questions and, at zero, sets the round's status to "completed".
A missing qa id raises `DoesNotExist`, caught into the failure dict; a
missing round row is only hit after the qa row was already saved. -/
def save_answer (st : Store) (qa_id : String) (answer_text : String) :
    SaveResult × Store :=
  match st.question_answers.find? (fun q => q.id == qa_id) with
  | none => (.failure, st)
  | some qa =>
    let qa' := { qa with answer_text := some answer_text, is_answered := true }
    let st1 := { st with question_answers := save_row QuestionAnswer.id qa_id qa' st.question_answers }
    match st1.rounds.find? (fun r => r.id == qa.round_id) with
    | none => (.failure, st1)
    | some round_obj =>
      let r1 := { round_obj with current_question_index := qa'.question_index + 1 }
      let st2 := { st1 with rounds := save_row Round.id round_obj.id r1 st1.rounds }
      let remaining := (st2.question_answers.filter
        (fun q => q.round_id == round_obj.id && !q.is_answered)).length
      if remaining == 0 then
        let r2 := { r1 with status := "completed" }
        let st3 := { st2 with rounds := save_row Round.id round_obj.id r2 st2.rounds }
        (.ok true 0, st3)
      else
        (.ok false remaining, st2)

/-- First element of the list ordered by `question_index` ascending
(Peewee `order_by(question_index).first()`; ties keep table order). -/
def first_by_question_index : List QuestionAnswer → Option QuestionAnswer
  | [] => none
  | q :: qs =>
    match first_by_question_index qs with
    | none => some q
    | some m => if q.question_index ≤ m.question_index then some q else some m

/-- The dict built by `get_current_question` when a question is found. -/
structure QuestionData where
  qa_id : String
  question : String
  category : Option String
  question_number : Nat
  total_questions : Nat
  round_id : String
deriving DecidableEq, Repr

/-- answer_handler.py `AnswerHandler.get_current_question` (identical logic
in question_service.py): unknown round yields `None`; otherwise the
unanswered question at `current_question_index` if any, else the
lowest-indexed unanswered question, else `None`. -/
def get_current_question (st : Store) (round_id : String) : Option QuestionData :=
  match RoundService.get_round st round_id with
  | none => none
  | some round_obj =>
    let current_index := round_obj.current_question_index
    let at_cursor := st.question_answers.find?
      (fun q => q.round_id == round_obj.id && q.question_index == current_index && !q.is_answered)
    let qa_record :=
      match at_cursor with
      | some q => some q
      | none => first_by_question_index
          (st.question_answers.filter (fun q => q.round_id == round_obj.id && !q.is_answered))
    match qa_record with
    | none => none
    | some qa =>
      let total := (st.question_answers.filter (fun q => q.round_id == round_obj.id)).length
      some { qa_id := qa.id, question := qa.question_text, category := qa.question_category,
             question_number := qa.question_index + 1, total_questions := total,
             round_id := round_id }

end AnswerHandler

namespace QuestionController

/-- The distinct return points of `confirm_qa_completion`
(question_controller.py). -/
inductive ConfirmResult where
  | not_found_session : ConfirmResult
  | not_found_round : ConfirmResult
  | server_error : ConfirmResult
  | qa_object_missing : ConfirmResult
  | ok (qa_object_path : String) : ConfirmResult
deriving DecidableEq, Repr

/-- question_controller.py `confirm_qa_completion`: looks up the session and
the round by `(session, round_index)`, builds the MinIO object path, aborts
with 409 when the object is absent (`object_exists` stands for the external
`minio_client.object_exists` call), then — atomically — marks the round
completed when it is not already, and, only inside that branch, marks the
session completed when no round of the session is left non-completed and the
session is not already completed. -/
def confirm_qa_completion (st : Store) (session_id : String) (round_index : Nat)
    (object_exists : Bool) : ConfirmResult × Store :=
  match SessionService.get_session st session_id with
  | none => (.not_found_session, st)
  | some session_obj =>
    match st.rounds.find? (fun r => r.session_id == session_obj.id && r.round_index == round_index) with
    | none => (.not_found_round, st)
    | some round_obj =>
      match st.rooms.find? (fun r => r.id == session_obj.room_id) with
      | none => (.server_error, st)
      | some room =>
        let path := "rooms/" ++ room.id ++ "/sessions/" ++ session_id ++
          "/analysis/qa_complete_" ++ toString round_index ++ ".json"
        if !object_exists then (.qa_object_missing, st)
        else
          if round_obj.status != "completed" then
            let r1 := { round_obj with status := "completed" }
            let st1 := { st with rounds := save_row Round.id round_obj.id r1 st.rounds }
            let has_active_rounds := st1.rounds.any
              (fun r => r.session_id == session_obj.id && r.status != "completed")
            if !has_active_rounds && session_obj.status != "completed" then
              let s1 := { session_obj with status := "completed" }
              (.ok path, { st1 with sessions := save_row Session.id session_obj.id s1 st1.sessions })
            else (.ok path, st1)
          else (.ok path, st)

end QuestionController

/-- Python `payload.get(field)` on the parsed JSON dict: `None` both when the
key is absent and when it maps to JSON null. -/
def pget (kvs : List (String × JVal)) (k : String) : Option JVal :=
  match kvs.find? (fun kv => kv.1 == k) with
  | some (_, JVal.null) => none
  | some (_, v) => some v
  | none => none

/-- Python `str(...)` on a payload value.  Ids in the payload are strings or
numbers; the renderings of list/dict values are abbreviated (they can never
equal a stored uuid string, which is all the controller compares them to). -/
def pyStr : JVal → String
  | .s v => v
  | .i v => toString v
  | .b true => "True"
  | .b false => "False"
  | .null => "None"
  | .arr _ => "<list>"
  | .obj _ => "<dict>"

/-- Python `int(...)` on a payload value: ints pass through, bools coerce to
0/1, strings parse as optionally signed decimal; anything else raises
(TypeError/ValueError). -/
def pyInt : JVal → Option Int
  | .i v => some v
  | .b v => some (if v then 1 else 0)
  | .s v => v.toInt?
  | _ => none

/-- Python `isinstance(v, (dict, list))` used on `qa_object`. -/
def is_dict_or_list : JVal → Bool
  | .arr _ => true
  | .obj _ => true
  | _ => false

/-- The inbound webhook request as the handler sees it: HTTP method, path,
decoded body text, and the optional `X-DH-Signature` header. -/
structure WebhookRequest where
  method : String
  path : String
  body : String
  signature_header : Option String
deriving DecidableEq, Repr

/-- Python `str.upper()` (`req.method.upper()`): uppercase every character. -/
def py_upper (s : String) : String := String.mk (s.data.map Char.toUpper)

/-- Python `str.strip()` with no argument: drop leading and trailing
whitespace. -/
def py_strip (s : String) : String :=
  String.mk (((s.data.dropWhile Char.isWhitespace).reverse.dropWhile
    Char.isWhitespace).reverse)

/-- api_controller.py `verify_signature`: no configured `WEBHOOK_SECRET`,
or no `X-DH-Signature` header, fails; otherwise the header must equal the
hex-encoded HMAC-SHA256 of `METHOD + PATH + BODY` under the secret
(`hmac.compare_digest` is equality in constant time).  The HMAC-SHA256
hex digest itself is the Python standard library's, taken as the abstract
function `hmac_sha256_hex secret message`. -/
def verify_signature (hmac_sha256_hex : String → String → String)
    (secret : Option String) (req : WebhookRequest) : Bool :=
  match secret with
  | none => false
  | some sec =>
    match req.signature_header with
    | none => false
    | some sig =>
      let message := py_upper req.method ++ req.path ++ req.body
      hmac_sha256_hex sec message == sig

namespace RoundCompletionService

/-- Modelled from the spec: `RoundService.get_round_by_session_and_index`
(referenced by the webhook controller, absent from the source tree) —
"A Round with that (Session, round_index) must exist → else NotFound(Round)". -/
def get_round_by_session_and_index (st : Store) (session_id : String)
    (round_index : Int) : Option Round :=
  st.rounds.find? (fun r => r.session_id == session_id && (r.round_index : Int) == round_index)

/-- Modelled from the spec: `RoundCompletionService.get_by_idempotency`
(absent from the source tree) — the existing record "matching the
idempotency_key". -/
def get_by_idempotency (st : Store) (key : String) : Option RoundCompletion :=
  st.completions.find? (fun c => c.idempotency_key == key)

/-- Modelled from the spec: `RoundCompletionService.get_by_session_and_index`
(absent from the source tree) — the existing record "matching
(Session, round_index)". -/
def get_by_session_and_index (st : Store) (session_id : String)
    (round_index : Int) : Option RoundCompletion :=
  st.completions.find? (fun c => c.session_id == session_id && c.round_index == round_index)

/-- Modelled from the spec: the storage-layer insert into the
`RoundCompletion` table, whose schema (absent from the source tree) carries
the two declared uniqueness constraints — "at most one RoundCompletion per
idempotency_key AND at most one per (Session, round_index) — both must be
enforced as uniqueness constraints, not just checked in application code".
An insert violating either constraint is refused by the store itself
(`none`), leaving the table unchanged, regardless of any application-level
check that preceded it. -/
def insert_completion (st : Store) (c : RoundCompletion) : Option Store :=
  if st.completions.any (fun c0 => c0.idempotency_key == c.idempotency_key) then none
  else if st.completions.any
      (fun c0 => c0.session_id == c.session_id && c0.round_index == c.round_index) then none
  else some { st with completions := st.completions ++ [c] }

/-- Modelled from the spec: `RoundCompletionService.record_completion`
(absent from the source tree) — "create the RoundCompletion row and, within
the same transaction/critical section, mark the corresponding Round as
completed if not already, and re-check whether the owning Session has zero
non-completed Rounds; if so, mark the Session completed"; a uniqueness
conflict on insert is "resolved internally by falling back to the
already-processed success path". -/
def record_completion (st : Store) (session : Session) (round_index : Int)
    (qa_object : JVal) (occurred_at : String) (idempotency_key : String)
    (round_obj : Round) (new_id : String) : RoundCompletion × Store :=
  let c : RoundCompletion :=
    { id := new_id, session_id := session.id, round_index := round_index,
      idempotency_key := idempotency_key, qa_object := qa_object, occurred_at := occurred_at }
  match insert_completion st c with
  | none =>
    match get_by_idempotency st idempotency_key with
    | some c0 => (c0, st)
    | none =>
      match get_by_session_and_index st session.id round_index with
      | some c0 => (c0, st)
      | none => (c, st)
  | some st1 =>
    let r1 := if round_obj.status != "completed"
      then { round_obj with status := "completed" } else round_obj
    let st2 := { st1 with rounds := save_row Round.id round_obj.id r1 st1.rounds }
    let all_done := st2.rounds.all
      (fun r => r.session_id != session.id || r.status == "completed")
    let s1 := { session with status := "completed" }
    let st3 :=
      if all_done && session.status != "completed" then
        { st2 with sessions := save_row Session.id session.id s1 st2.sessions }
      else st2
    (c, st3)

end RoundCompletionService

namespace ApiController

/-- The distinct return points of `complete_round_webhook`
(api_controller.py), by source order. -/
inductive WebhookResponse where
  | bad_json : WebhookResponse
  | missing_fields (fields : List String) : WebhookResponse
  | unauthorized : WebhookResponse
  | bad_round_index : WebhookResponse
  | bad_qa_object : WebhookResponse
  | bad_idempotency_key : WebhookResponse
  | bad_occurred_at : WebhookResponse
  | not_found_session : WebhookResponse
  | server_error : WebhookResponse
  | room_mismatch : WebhookResponse
  | not_found_round : WebhookResponse
  | already_processed (completion_id : String) : WebhookResponse
  | created (completion_id : String) : WebhookResponse
deriving DecidableEq, Repr

/-- The fields `complete_round_webhook` requires, in source order. -/
def required_fields : List String :=
  ["room_id", "session_id", "round_index", "qa_object", "occurred_at", "idempotency_key"]

/-- api_controller.py `complete_round_webhook`.  `payload` is the result of
`request.get_json(silent=True)`; `hmac_sha256_hex` and `parse_iso` stand for
the Python standard library's HMAC hex digest and
`datetime.fromisoformat` success; `new_completion_id` is the id the service
would mint for a freshly created row.  The source order of the checks is
kept: JSON-object check, missing-field check, signature check, per-field
type checks, session/room/round existence, idempotency lookups (key first,
then (session, round_index)), then `record_completion`. -/
def complete_round_webhook (hmac_sha256_hex : String → String → String)
    (parse_iso : String → Bool) (secret : Option String) (req : WebhookRequest)
    (payload : Option JVal) (new_completion_id : String) (st : Store) :
    WebhookResponse × Store :=
  match payload with
  | some (JVal.obj kvs) =>
    let missing_fields := required_fields.filter (fun f => (pget kvs f).isNone)
    if missing_fields ≠ [] then (.missing_fields missing_fields, st)
    else if !verify_signature hmac_sha256_hex secret req then (.unauthorized, st)
    else
      let room_id := pyStr ((pget kvs "room_id").getD JVal.null)
      let session_id := pyStr ((pget kvs "session_id").getD JVal.null)
      let qa_object := (pget kvs "qa_object").getD JVal.null
      match pyInt ((pget kvs "round_index").getD JVal.null) with
      | none => (.bad_round_index, st)
      | some round_index =>
        if !is_dict_or_list qa_object then (.bad_qa_object, st)
        else
          match (pget kvs "idempotency_key").getD JVal.null with
          | JVal.s idempotency_key =>
            if py_strip idempotency_key == "" then (.bad_idempotency_key, st)
            else
              match (pget kvs "occurred_at").getD JVal.null with
              | JVal.s occurred_at_raw =>
                let occurred_at := occurred_at_raw.replace "Z" "+00:00"
                if !parse_iso occurred_at then (.bad_occurred_at, st)
                else
                  match SessionService.get_session st session_id with
                  | none => (.not_found_session, st)
                  | some session =>
                    match st.rooms.find? (fun r => r.id == session.room_id) with
                    | none => (.server_error, st)
                    | some room =>
                      if room.id != room_id then (.room_mismatch, st)
                      else
                        match RoundCompletionService.get_round_by_session_and_index
                            st session_id round_index with
                        | none => (.not_found_round, st)
                        | some round_obj =>
                          match RoundCompletionService.get_by_idempotency st idempotency_key with
                          | some existing => (.already_processed existing.id, st)
                          | none =>
                            match RoundCompletionService.get_by_session_and_index
                                st session.id round_index with
                            | some existing => (.already_processed existing.id, st)
                            | none =>
                              let result := RoundCompletionService.record_completion
                                st session round_index qa_object occurred_at
                                idempotency_key round_obj new_completion_id
                              (.created result.1.id, result.2)
              | _ => (.bad_occurred_at, st)
          | _ => (.bad_idempotency_key, st)
  | _ => (.bad_json, st)

end ApiController

/-! ### Concrete fixtures used by counterexamples and witnesses -/

/-- A room on file. -/
def room1 : Room := { id := "R1", memory_id := "m1", name := "room" }

/-- An active session in `room1`. -/
def sess1 : Session := { id := "S1", name := "s", room_id := "R1", status := "active" }

/-- An active round of `sess1` with two questions. -/
def rnd0 : Round :=
  { id := "r0", session_id := "S1", round_index := 0, questions_count := 2,
    questions_file_path := "p0", round_type := "ai_generated",
    current_question_index := 0, status := "active" }

/-- First question of `rnd0`, unanswered. -/
def qa0 : QuestionAnswer :=
  { id := "q0", round_id := "r0", question_index := 0, question_text := "a",
    answer_text := none, question_category := none, is_answered := false }

/-- Second question of `rnd0`, unanswered. -/
def qa1 : QuestionAnswer :=
  { id := "q1", round_id := "r0", question_index := 1, question_text := "b",
    answer_text := none, question_category := none, is_answered := false }

/-- Store with one room, one session, one two-question round. -/
def store1 : Store :=
  { rooms := [room1], sessions := [sess1], rounds := [rnd0],
    question_answers := [qa0, qa1], completions := [] }

/-- A single-question round of `sess1`. -/
def rnd5 : Round :=
  { id := "r5", session_id := "S1", round_index := 0, questions_count := 1,
    questions_file_path := "p5", round_type := "ai_generated",
    current_question_index := 0, status := "active" }

/-- The single question of `rnd5`, unanswered. -/
def qa5 : QuestionAnswer :=
  { id := "q5", round_id := "r5", question_index := 0, question_text := "a",
    answer_text := none, question_category := none, is_answered := false }

/-- Store whose only round has a single question. -/
def store5 : Store :=
  { rooms := [room1], sessions := [sess1], rounds := [rnd5],
    question_answers := [qa5], completions := [] }

/-- Stand-in for the HMAC-SHA256 hex digest at concrete inputs. -/
def hm0 : String → String → String := fun sec msg => sec ++ "|" ++ msg

/-- Stand-in for ISO-8601 parse success at concrete inputs. -/
def parse_true : String → Bool := fun _ => true

/-- Webhook request whose header is the correct digest of its own body. -/
def req_ok : WebhookRequest :=
  { method := "post", path := "/api/rounds/complete", body := "BODY",
    signature_header := some (hm0 "sec" ("POST" ++ "/api/rounds/complete" ++ "BODY")) }

/-- Webhook request with a wrong signature header. -/
def req_bad : WebhookRequest :=
  { method := "post", path := "/api/rounds/complete", body := "BODY",
    signature_header := some "nope" }

/-- Field list of a payload with all six required fields, well formed. -/
def kvs_full : List (String × JVal) :=
  [("room_id", JVal.s "R1"), ("session_id", JVal.s "S1"),
   ("round_index", JVal.i 0), ("qa_object", JVal.obj []),
   ("occurred_at", JVal.s "2024-01-01T00:00:00Z"), ("idempotency_key", JVal.s "k1")]

/-- Payload with all six required fields, well formed. -/
def pl_full : JVal := JVal.obj kvs_full

/-- Payload with all six fields present but a scalar (malformed) `qa_object`. -/
def pl_malformed : JVal := JVal.obj
  [("room_id", JVal.s "R1"), ("session_id", JVal.s "S1"),
   ("round_index", JVal.i 0), ("qa_object", JVal.s "scalar"),
   ("occurred_at", JVal.s "2024-01-01T00:00:00Z"), ("idempotency_key", JVal.s "k1")]

/-- An existing completion for `(S1, 0)` under key `"k1"`. -/
def comp1 : RoundCompletion :=
  { id := "c1", session_id := "S1", round_index := 0, idempotency_key := "k1",
    qa_object := JVal.obj [], occurred_at := "2024-01-01T00:00:00+00:00" }

/-- `store1` after the completion `comp1` has been recorded. -/
def store1c : Store := { store1 with completions := [comp1] }

/-! ### Shared frame lemmas -/

/-- An element of a `save_row` image is the replacement row or an untouched
row whose key differs. -/
theorem mem_save_row {α : Type} (key : α → String) (k : String) (r' : α)
    (l : List α) (r : α) (h : r ∈ save_row key k r' l) :
    r = r' ∨ (r ∈ l ∧ (key r == k) = false) := by
  unfold save_row at h
  rcases List.mem_map.mp h with ⟨x, hx, hfx⟩
  by_cases hk : (key x == k) = true
  · left
    rw [if_pos hk] at hfx
    exact hfx.symm
  · right
    rw [if_neg hk] at hfx
    subst hfx
    exact ⟨hx, Bool.not_eq_true _ ▸ hk⟩

/-- `delete_round` leaves every table except `rounds` unchanged. -/
theorem delete_round_frame (st : Store) (rid : String) :
    (RoundService.delete_round st rid).2.question_answers = st.question_answers ∧
    (RoundService.delete_round st rid).2.sessions = st.sessions ∧
    (RoundService.delete_round st rid).2.rooms = st.rooms ∧
    (RoundService.delete_round st rid).2.completions = st.completions := by
  unfold RoundService.delete_round
  cases h : st.rounds.find? (fun r => r.id == rid) <;> simp

/-- Folding `delete_round` over a list of ids leaves every table except
`rounds` unchanged. -/
theorem foldl_delete_round_frame (l : List String) (st : Store) :
    (l.foldl (fun acc rid => (RoundService.delete_round acc rid).2) st).question_answers
        = st.question_answers ∧
    (l.foldl (fun acc rid => (RoundService.delete_round acc rid).2) st).sessions
        = st.sessions ∧
    (l.foldl (fun acc rid => (RoundService.delete_round acc rid).2) st).rooms
        = st.rooms ∧
    (l.foldl (fun acc rid => (RoundService.delete_round acc rid).2) st).completions
        = st.completions := by
  induction l generalizing st with
  | nil => exact ⟨rfl, rfl, rfl, rfl⟩
  | cons hd tl ih =>
    simp only [List.foldl_cons]
    obtain ⟨h1, h2, h3, h4⟩ := ih (RoundService.delete_round st hd).2
    obtain ⟨g1, g2, g3, g4⟩ := delete_round_frame st hd
    exact ⟨h1.trans g1, h2.trans g2, h3.trans g3, h4.trans g4⟩

/-- `delete_session` leaves `question_answers`, `rooms` and `completions`
unchanged. -/
theorem delete_session_frame (st : Store) (sid : String) :
    (SessionService.delete_session st sid).2.question_answers = st.question_answers ∧
    (SessionService.delete_session st sid).2.rooms = st.rooms ∧
    (SessionService.delete_session st sid).2.completions = st.completions := by
  unfold SessionService.delete_session
  cases h : st.sessions.find? (fun s => s.id == sid) with
  | none => exact ⟨rfl, rfl, rfl⟩
  | some s =>
    obtain ⟨h1, _, h3, h4⟩ := foldl_delete_round_frame
      ((st.rounds.filter (fun r => r.session_id == s.id)).map (fun r => r.id)) st
    exact ⟨h1, h3, h4⟩

/-- Folding `delete_session` over a list of ids leaves `question_answers`,
`rooms` and `completions` unchanged. -/
theorem foldl_delete_session_frame (l : List String) (st : Store) :
    (l.foldl (fun acc sid => (SessionService.delete_session acc sid).2) st).question_answers
        = st.question_answers ∧
    (l.foldl (fun acc sid => (SessionService.delete_session acc sid).2) st).rooms
        = st.rooms ∧
    (l.foldl (fun acc sid => (SessionService.delete_session acc sid).2) st).completions
        = st.completions := by
  induction l generalizing st with
  | nil => exact ⟨rfl, rfl, rfl⟩
  | cons hd tl ih =>
    simp only [List.foldl_cons]
    obtain ⟨h1, h2, h3⟩ := ih (SessionService.delete_session st hd).2
    obtain ⟨g1, g2, g3⟩ := delete_session_frame st hd
    exact ⟨h1.trans g1, h2.trans g2, h3.trans g3⟩

/-- `delete_room` leaves `question_answers` and `completions` unchanged. -/
theorem delete_room_frame (st : Store) (rid : String) :
    (RoomService.delete_room st rid).2.question_answers = st.question_answers ∧
    (RoomService.delete_room st rid).2.completions = st.completions := by
  unfold RoomService.delete_room
  cases h : st.rooms.find? (fun r => r.id == rid) with
  | none => exact ⟨rfl, rfl⟩
  | some room =>
    obtain ⟨h1, _, h3⟩ := foldl_delete_session_frame
      ((st.sessions.filter (fun s => s.room_id == room.id)).map (fun s => s.id)) st
    exact ⟨h1, h3⟩

/-! ### C10 -/

/-- C10: `delete_round` — also when invoked through `delete_session` and
`delete_room` — removes only the Round row itself: the QuestionAnswer table
is untouched (its rows keep referencing the deleted round), and a successful
`delete_round` changes the rounds table exactly by dropping the rows with the
deleted id. -/
theorem C10_delete_round_only_removes_round :
    (∀ st rid,
      (RoundService.delete_round st rid).2.question_answers = st.question_answers ∧
      (RoundService.delete_round st rid).2.sessions = st.sessions ∧
      (RoundService.delete_round st rid).2.rooms = st.rooms ∧
      (RoundService.delete_round st rid).2.completions = st.completions) ∧
    (∀ st rid r, st.rounds.find? (fun x => x.id == rid) = some r →
      (RoundService.delete_round st rid).2.rounds = st.rounds.filter (fun x => x.id != rid)) ∧
    (∀ st sid, (SessionService.delete_session st sid).2.question_answers = st.question_answers) ∧
    (∀ st rid, (RoomService.delete_room st rid).2.question_answers = st.question_answers) := by
  refine ⟨fun st rid => delete_round_frame st rid, fun st rid r h => ?_,
    fun st sid => (delete_session_frame st sid).1,
    fun st rid => (delete_room_frame st rid).1⟩
  unfold RoundService.delete_round
  rw [h]

/-- Witness for C10 at a concrete store: deleting round `r0` keeps both
QuestionAnswer rows and drops exactly the `r0` row. -/
theorem C10_delete_round_only_removes_round_witness :
    (RoundService.delete_round store1 "r0").2.question_answers = store1.question_answers ∧
    (RoundService.delete_round store1 "r0").2.rounds
      = store1.rounds.filter (fun x => x.id != "r0") :=
  ⟨(C10_delete_round_only_removes_round.1 store1 "r0").1,
   C10_delete_round_only_removes_round.2.1 store1 "r0" rnd0 rfl⟩

/-! ### C9 -/

/-- In a round all of whose questions are answered, `get_current_question`
yields `none` (the terminal state of the query). -/
theorem get_current_question_all_answered (st : Store) (rid : String) (round_obj : Round)
    (h : RoundService.get_round st rid = some round_obj)
    (hall : ∀ q ∈ st.question_answers, q.round_id = round_obj.id → q.is_answered = true) :
    AnswerHandler.get_current_question st rid = none := by
  have hcursor : st.question_answers.find?
      (fun q => q.round_id == round_obj.id &&
        q.question_index == round_obj.current_question_index && !q.is_answered) = none := by
    rw [List.find?_eq_none]
    intro q hq
    have ha := hall q hq
    by_cases hr : q.round_id = round_obj.id
    · simp [ha hr]
    · simp [hr]
  have hfilter : st.question_answers.filter
      (fun q => q.round_id == round_obj.id && !q.is_answered) = [] := by
    rw [List.filter_eq_nil_iff]
    intro q hq
    have ha := hall q hq
    by_cases hr : q.round_id = round_obj.id
    · simp [ha hr]
    · simp [hr]
  unfold AnswerHandler.get_current_question
  rw [h]
  simp only [hcursor, hfilter]
  rfl

/-- C9: `get_current_question` on a round id that does not exist returns
`none` — the very value that also signals the normal all-questions-answered
terminal state — rather than a distinct NotFound error. -/
theorem C9_unknown_round_returns_none :
    (∀ st rid, st.rounds.find? (fun r => r.id == rid) = none →
      AnswerHandler.get_current_question st rid = none) ∧
    (∀ st rid round_obj, RoundService.get_round st rid = some round_obj →
      (∀ q ∈ st.question_answers, q.round_id = round_obj.id → q.is_answered = true) →
      AnswerHandler.get_current_question st rid = none) := by
  constructor
  · intro st rid h
    unfold AnswerHandler.get_current_question RoundService.get_round
    rw [h]
  · exact fun st rid round_obj h hall => get_current_question_all_answered st rid round_obj h hall

/-- Witness for C9: the empty store has no round `"nope"`, and the query
returns `none`. -/
theorem C9_unknown_round_returns_none_witness :
    AnswerHandler.get_current_question init_store "nope" = none :=
  C9_unknown_round_returns_none.1 init_store "nope" rfl

/-! ### C3 -/

/-- C3 counterexample: a payload with all six required fields present but a
malformed (scalar) `qa_object`, carried by a request with an invalid
signature, is answered with Unauthorized — not with a validation error as
the claim requires for malformed fields. -/
theorem C3_counterexample :
    ApiController.complete_round_webhook hm0 parse_true (some "sec") req_bad
      (some pl_malformed) "c-new" store1 = (.unauthorized, store1) := rfl

/-- C3 amended: a payload with *missing* required fields fails with a
validation error listing exactly the missing fields, before — and regardless
of — signature verification; the *malformedness* checks on present fields
still each fail with their own field-naming validation error, but they run
only after the signature check: a structurally complete yet malformed
payload with a bad signature is answered with Unauthorized, while with a
valid signature a non-integer round_index, a scalar qa_object, a non-string
or blank idempotency_key, and a non-string or unparseable occurred_at each
produce their distinct validation error, in source order. -/
theorem C3_missing_fields_precede_signature :
    (∀ (hm : String → String → String) (parse_iso : String → Bool)
        (secret : Option String) (req : WebhookRequest)
        (kvs : List (String × JVal)) (new_id : String) (st : Store),
      ApiController.required_fields.filter (fun f => (pget kvs f).isNone) ≠ [] →
      ApiController.complete_round_webhook hm parse_iso secret req
          (some (JVal.obj kvs)) new_id st
        = (.missing_fields (ApiController.required_fields.filter
            (fun f => (pget kvs f).isNone)), st)) ∧
    (∀ (hm : String → String → String) (parse_iso : String → Bool)
        (secret : Option String) (req : WebhookRequest)
        (kvs : List (String × JVal)) (new_id : String) (st : Store),
      ApiController.required_fields.filter (fun f => (pget kvs f).isNone) = [] →
      verify_signature hm secret req = false →
      ApiController.complete_round_webhook hm parse_iso secret req
          (some (JVal.obj kvs)) new_id st = (.unauthorized, st)) ∧
    (∀ (hm : String → String → String) (parse_iso : String → Bool)
        (secret : Option String) (req : WebhookRequest)
        (kvs : List (String × JVal)) (new_id : String) (st : Store),
      ApiController.required_fields.filter (fun f => (pget kvs f).isNone) = [] →
      verify_signature hm secret req = true →
      pyInt ((pget kvs "round_index").getD JVal.null) = none →
      ApiController.complete_round_webhook hm parse_iso secret req
          (some (JVal.obj kvs)) new_id st = (.bad_round_index, st)) ∧
    (∀ (hm : String → String → String) (parse_iso : String → Bool)
        (secret : Option String) (req : WebhookRequest)
        (kvs : List (String × JVal)) (new_id : String) (st : Store) (idx : Int),
      ApiController.required_fields.filter (fun f => (pget kvs f).isNone) = [] →
      verify_signature hm secret req = true →
      pyInt ((pget kvs "round_index").getD JVal.null) = some idx →
      is_dict_or_list ((pget kvs "qa_object").getD JVal.null) = false →
      ApiController.complete_round_webhook hm parse_iso secret req
          (some (JVal.obj kvs)) new_id st = (.bad_qa_object, st)) ∧
    (∀ (hm : String → String → String) (parse_iso : String → Bool)
        (secret : Option String) (req : WebhookRequest)
        (kvs : List (String × JVal)) (new_id : String) (st : Store) (idx : Int)
        (key : String),
      ApiController.required_fields.filter (fun f => (pget kvs f).isNone) = [] →
      verify_signature hm secret req = true →
      pyInt ((pget kvs "round_index").getD JVal.null) = some idx →
      is_dict_or_list ((pget kvs "qa_object").getD JVal.null) = true →
      (pget kvs "idempotency_key").getD JVal.null = JVal.s key →
      (py_strip key == "") = true →
      ApiController.complete_round_webhook hm parse_iso secret req
          (some (JVal.obj kvs)) new_id st = (.bad_idempotency_key, st)) ∧
    (∀ (hm : String → String → String) (parse_iso : String → Bool)
        (secret : Option String) (req : WebhookRequest)
        (kvs : List (String × JVal)) (new_id : String) (st : Store) (idx : Int),
      ApiController.required_fields.filter (fun f => (pget kvs f).isNone) = [] →
      verify_signature hm secret req = true →
      pyInt ((pget kvs "round_index").getD JVal.null) = some idx →
      is_dict_or_list ((pget kvs "qa_object").getD JVal.null) = true →
      (∀ s, (pget kvs "idempotency_key").getD JVal.null ≠ JVal.s s) →
      ApiController.complete_round_webhook hm parse_iso secret req
          (some (JVal.obj kvs)) new_id st = (.bad_idempotency_key, st)) ∧
    (∀ (hm : String → String → String) (parse_iso : String → Bool)
        (secret : Option String) (req : WebhookRequest)
        (kvs : List (String × JVal)) (new_id : String) (st : Store) (idx : Int)
        (key occ : String),
      ApiController.required_fields.filter (fun f => (pget kvs f).isNone) = [] →
      verify_signature hm secret req = true →
      pyInt ((pget kvs "round_index").getD JVal.null) = some idx →
      is_dict_or_list ((pget kvs "qa_object").getD JVal.null) = true →
      (pget kvs "idempotency_key").getD JVal.null = JVal.s key →
      (py_strip key == "") = false →
      (pget kvs "occurred_at").getD JVal.null = JVal.s occ →
      parse_iso (occ.replace "Z" "+00:00") = false →
      ApiController.complete_round_webhook hm parse_iso secret req
          (some (JVal.obj kvs)) new_id st = (.bad_occurred_at, st)) ∧
    (∀ (hm : String → String → String) (parse_iso : String → Bool)
        (secret : Option String) (req : WebhookRequest)
        (kvs : List (String × JVal)) (new_id : String) (st : Store) (idx : Int)
        (key : String),
      ApiController.required_fields.filter (fun f => (pget kvs f).isNone) = [] →
      verify_signature hm secret req = true →
      pyInt ((pget kvs "round_index").getD JVal.null) = some idx →
      is_dict_or_list ((pget kvs "qa_object").getD JVal.null) = true →
      (pget kvs "idempotency_key").getD JVal.null = JVal.s key →
      (py_strip key == "") = false →
      (∀ s, (pget kvs "occurred_at").getD JVal.null ≠ JVal.s s) →
      ApiController.complete_round_webhook hm parse_iso secret req
          (some (JVal.obj kvs)) new_id st = (.bad_occurred_at, st)) := by
  refine ⟨?_, ?_, ?_, ?_, ?_, ?_, ?_, ?_⟩
  · intro hm parse_iso secret req kvs new_id st hmiss
    unfold ApiController.complete_round_webhook
    simp [hmiss]
  · intro hm parse_iso secret req kvs new_id st hmiss hsig
    unfold ApiController.complete_round_webhook
    simp [hmiss, hsig]
  · intro hm parse_iso secret req kvs new_id st hmiss hsig hint
    unfold ApiController.complete_round_webhook
    simp only [hmiss, hsig, hint, ne_eq, not_true_eq_false, Bool.not_true,
      Bool.false_eq_true, if_false, ite_false, Bool.not_false, ite_true, if_true]
  · intro hm parse_iso secret req kvs new_id st idx hmiss hsig hint hqa
    unfold ApiController.complete_round_webhook
    simp only [hmiss, hsig, hint, hqa, ne_eq, not_true_eq_false, Bool.not_true,
      Bool.false_eq_true, if_false, ite_false, Bool.not_false, ite_true, if_true]
  · intro hm parse_iso secret req kvs new_id st idx key hmiss hsig hint hqa hkey hblank
    unfold ApiController.complete_round_webhook
    simp only [hmiss, hsig, hint, hqa, hkey, hblank, ne_eq, not_true_eq_false,
      Bool.not_true, Bool.false_eq_true, if_false, ite_false, Bool.not_false,
      ite_true, if_true]
  · intro hm parse_iso secret req kvs new_id st idx hmiss hsig hint hqa hany
    unfold ApiController.complete_round_webhook
    simp only [hmiss, hsig, hint, hqa, ne_eq, not_true_eq_false, Bool.not_true,
      Bool.false_eq_true, if_false, ite_false, Bool.not_false, ite_true, if_true]
  · intro hm parse_iso secret req kvs new_id st idx key occ hmiss hsig hint hqa hkey
      hblank hocc hpar
    unfold ApiController.complete_round_webhook
    simp only [hmiss, hsig, hint, hqa, hkey, hblank, hocc, hpar, ne_eq,
      not_true_eq_false, Bool.not_true, Bool.false_eq_true, if_false, ite_false,
      Bool.not_false, ite_true, if_true]
  · intro hm parse_iso secret req kvs new_id st idx key hmiss hsig hint hqa hkey
      hblank hany
    unfold ApiController.complete_round_webhook
    simp only [hmiss, hsig, hint, hqa, hkey, hblank, ne_eq, not_true_eq_false,
      Bool.not_true, Bool.false_eq_true, if_false, ite_false, Bool.not_false,
      ite_true, if_true]

/-- Witness for the amended C3: a concrete payload missing `qa_object` with
an invalid signature reports exactly the missing field; a concrete complete
payload with the same invalid signature reports Unauthorized; and the same
malformed payload (scalar `qa_object`) with a *valid* signature reports the
qa_object validation error — the malformed check runs once the signature
passes. -/
theorem C3_missing_fields_precede_signature_witness :
    ApiController.complete_round_webhook hm0 parse_true (some "sec") req_bad
        (some (JVal.obj [("room_id", JVal.s "R1"), ("session_id", JVal.s "S1"),
          ("round_index", JVal.i 0), ("occurred_at", JVal.s "t"),
          ("idempotency_key", JVal.s "k1")])) "c-new" store1
      = (.missing_fields ["qa_object"], store1) ∧
    ApiController.complete_round_webhook hm0 parse_true (some "sec") req_bad
        (some pl_full) "c-new" store1 = (.unauthorized, store1) ∧
    ApiController.complete_round_webhook hm0 parse_true (some "sec") req_ok
        (some pl_malformed) "c-new" store1 = (.bad_qa_object, store1) := by
  refine ⟨?_, ?_, ?_⟩
  · exact C3_missing_fields_precede_signature.1 hm0 parse_true (some "sec") req_bad
      _ "c-new" store1 (by decide)
  · exact C3_missing_fields_precede_signature.2.1 hm0 parse_true (some "sec") req_bad
      _ "c-new" store1 (by decide) rfl
  · exact C3_missing_fields_precede_signature.2.2.2.1 hm0 parse_true (some "sec")
      req_ok _ "c-new" store1 0 (by decide) (by decide) rfl rfl

/-! ### C5 -/

/-- C5 counterexample: in a session whose single round has a single
question, `save_answer` on that question completes the round (every round of
the session now has a completion), yet the session's status stays "active"
— `save_answer` never cascades to the session. -/
theorem C5_counterexample :
    (AnswerHandler.save_answer store5 "q5" "a").1 = .ok true 0 ∧
    (AnswerHandler.save_answer store5 "q5" "a").2.rounds.map Round.status = ["completed"] ∧
    (AnswerHandler.save_answer store5 "q5" "a").2.sessions.map Session.status = ["active"] :=
  ⟨rfl, rfl, rfl⟩

/-! ### C6 -/

/-- C6 counterexample: answering question 1 first moves
`current_question_index` to 2; answering question 0 afterwards moves it back
down to 1 — the cursor decreases across this `save_answer` sequence. -/
theorem C6_counterexample :
    (AnswerHandler.save_answer store1 "q1" "b1").2.rounds.map
        Round.current_question_index = [2] ∧
    (AnswerHandler.save_answer
        (AnswerHandler.save_answer store1 "q1" "b1").2 "q0" "a0").2.rounds.map
        Round.current_question_index = [1] :=
  ⟨rfl, rfl⟩

/-! ### C7 -/

/-- C7 counterexample: create a second round (index 1), delete the round
with index 0, then create another round: the count-based assignment hands
out index 1 again, so the session's indices are `[1, 1]` — a duplicate, a
gap at 0, and a reused index. -/
theorem C7_counterexample :
    (RoundService.create_round (RoundService.delete_round
        (RoundService.create_round store1 "S1" ["x"] "ai_generated" "r1").2 "r0").2
        "S1" ["y"] "ai_generated" "r2").2.rounds.map (fun r => (r.id, r.round_index))
      = [("r1", 1), ("r2", 1)] := rfl

/-! ### C4 -/

/-- C4: `verify_signature` accepts exactly when the secret is configured,
the signature header is present, and the header equals the HMAC-SHA256 hex
digest of `METHOD + PATH + BODY` under the secret; in the webhook handler a
failed verification (missing secret, missing header, or mismatch all make it
false) yields the one Unauthorized response; and tampering with the body
while keeping the header fixed is rejected whenever the digests of the two
bodies differ. -/
theorem C4_signature_acceptance :
    (∀ (hm : String → String → String) (secret : Option String) (req : WebhookRequest),
      verify_signature hm secret req = true ↔
      ∃ sec sig, secret = some sec ∧ req.signature_header = some sig ∧
        sig = hm sec (py_upper req.method ++ req.path ++ req.body)) ∧
    (∀ (hm : String → String → String) (parse_iso : String → Bool)
        (secret : Option String) (req : WebhookRequest)
        (kvs : List (String × JVal)) (new_id : String) (st : Store),
      ApiController.required_fields.filter (fun f => (pget kvs f).isNone) = [] →
      verify_signature hm secret req = false →
      ApiController.complete_round_webhook hm parse_iso secret req
          (some (JVal.obj kvs)) new_id st = (.unauthorized, st)) ∧
    (∀ (hm : String → String → String) (sec : String) (req : WebhookRequest)
        (body' : String),
      req.signature_header = some (hm sec (py_upper req.method ++ req.path ++ req.body)) →
      hm sec (py_upper req.method ++ req.path ++ body')
        ≠ hm sec (py_upper req.method ++ req.path ++ req.body) →
      verify_signature hm (some sec) { req with body := body' } = false) := by
  refine ⟨fun hm secret req => ?_, fun hm parse_iso secret req kvs new_id st hmiss hsig => ?_,
    fun hm sec req body' hheader hne => ?_⟩
  · constructor
    · intro hv
      unfold verify_signature at hv
      cases hsec : secret with
      | none => rw [hsec] at hv; exact absurd hv (by simp)
      | some sec =>
        rw [hsec] at hv
        cases hhd : req.signature_header with
        | none => rw [hhd] at hv; exact absurd hv (by simp)
        | some sig =>
          rw [hhd] at hv
          simp only [beq_iff_eq] at hv
          exact ⟨sec, sig, rfl, rfl, hv.symm⟩
    · rintro ⟨sec, sig, hsec, hhd, hsig⟩
      unfold verify_signature
      rw [hsec, hhd]
      simp [hsig]
  · unfold ApiController.complete_round_webhook
    simp [hmiss, hsig]
  · unfold verify_signature
    simp only [hheader]
    simp [hne]

/-- Witness for C4: the correctly signed concrete request is accepted; the
wrongly signed one makes the concrete webhook call answer Unauthorized; and
tampering the body of the correctly signed request is rejected. -/
theorem C4_signature_acceptance_witness :
    verify_signature hm0 (some "sec") req_ok = true ∧
    ApiController.complete_round_webhook hm0 parse_true (some "sec") req_bad
        (some pl_full) "c-new" store1 = (.unauthorized, store1) ∧
    verify_signature hm0 (some "sec") { req_ok with body := "TAMPERED" } = false :=
  ⟨(C4_signature_acceptance.1 hm0 (some "sec") req_ok).mpr
      ⟨"sec", hm0 "sec" ("POST" ++ "/api/rounds/complete" ++ "BODY"), rfl, rfl, by decide⟩,
   C4_signature_acceptance.2.1 hm0 parse_true (some "sec") req_bad _ "c-new" store1
      (by decide) rfl,
   C4_signature_acceptance.2.2 hm0 "sec" req_ok "TAMPERED" (by decide) (by decide)⟩

/-! ### C6 amended -/

/-- C6 amended: `save_answer` on an existing QuestionAnswer sets its round's
`current_question_index` to `question_index + 1` unconditionally; the cursor
therefore never decreases exactly when the answered question's
`question_index + 1` is at least the previous cursor (in particular for
in-order answering), but answering a lower-indexed question after a
higher-indexed one decreases it. -/
theorem C6_cursor_set_to_answered_index_plus_one (st : Store) (qa_id answer : String)
    (qa : QuestionAnswer) (round_obj : Round)
    (hqa : st.question_answers.find? (fun q => q.id == qa_id) = some qa)
    (hround : st.rounds.find? (fun r => r.id == qa.round_id) = some round_obj) :
    (∀ r ∈ (AnswerHandler.save_answer st qa_id answer).2.rounds, r.id = round_obj.id →
      r.current_question_index = qa.question_index + 1) ∧
    (round_obj.current_question_index ≤ qa.question_index + 1 →
      ∀ r ∈ (AnswerHandler.save_answer st qa_id answer).2.rounds, r.id = round_obj.id →
        round_obj.current_question_index ≤ r.current_question_index) := by
  have hmain : ∀ r ∈ (AnswerHandler.save_answer st qa_id answer).2.rounds,
      r.id = round_obj.id → r.current_question_index = qa.question_index + 1 := by
    intro r hr hid
    unfold AnswerHandler.save_answer at hr
    rw [hqa] at hr
    simp only at hr
    rw [hround] at hr
    simp only at hr
    set qa' := { qa with answer_text := some answer, is_answered := true } with hqa'
    by_cases hrem : ((save_row QuestionAnswer.id qa_id qa' st.question_answers).filter
        (fun q => q.round_id == round_obj.id && !q.is_answered)).length = 0
    · rw [if_pos (by simpa using hrem)] at hr
      simp only at hr
      rcases mem_save_row _ _ _ _ _ hr with h1 | ⟨h2, hne⟩
      · rw [h1]
      · rcases mem_save_row _ _ _ _ _ h2 with g1 | ⟨_, gne⟩
        · rw [g1]
        · rw [hid] at gne
          simp at gne
    · rw [if_neg (by simpa using hrem)] at hr
      simp only at hr
      rcases mem_save_row _ _ _ _ _ hr with h1 | ⟨_, hne⟩
      · rw [h1]
      · rw [hid] at hne
        simp at hne
  exact ⟨hmain, fun hmono r hr hid => hmain r hr hid ▸ hmono⟩

/-- Witness for the amended C6: answering `q0` of the concrete store sets
the cursor of round `r0` to 1. -/
theorem C6_cursor_set_to_answered_index_plus_one_witness :
    ((AnswerHandler.save_answer store1 "q0" "a0").2.rounds.find?
      (fun r => r.id == "r0")).map Round.current_question_index = some 1 := by
  have h := (C6_cursor_set_to_answered_index_plus_one store1 "q0" "a0" qa0 rnd0 rfl rfl).1
  cases hf : (AnswerHandler.save_answer store1 "q0" "a0").2.rounds.find?
      (fun r => r.id == "r0") with
  | none => exact absurd hf (by decide)
  | some r =>
    have hmem := List.mem_of_find?_eq_some hf
    have hid := List.find?_some hf
    simp only [beq_iff_eq] at hid
    exact congrArg some (h r hmem hid)

/-! ### C8 -/

/-- `first_by_question_index` yields `none` only on the empty list. -/
theorem first_by_question_index_eq_none (l : List QuestionAnswer)
    (h : AnswerHandler.first_by_question_index l = none) : l = [] := by
  cases l with
  | nil => rfl
  | cons hd tl =>
    unfold AnswerHandler.first_by_question_index at h
    cases hm : AnswerHandler.first_by_question_index tl with
    | none => rw [hm] at h; cases h
    | some m =>
      rw [hm] at h
      dsimp only at h
      by_cases hle : hd.question_index ≤ m.question_index
      · rw [if_pos hle] at h; cases h
      · rw [if_neg hle] at h; cases h

/-- `first_by_question_index` picks an element of the list with the least
`question_index`. -/
theorem first_by_question_index_spec (l : List QuestionAnswer) :
    ∀ q : QuestionAnswer, AnswerHandler.first_by_question_index l = some q →
      q ∈ l ∧ ∀ x ∈ l, q.question_index ≤ x.question_index := by
  induction l with
  | nil => intro q h; cases h
  | cons hd tl ih =>
    intro q h
    unfold AnswerHandler.first_by_question_index at h
    cases hm : AnswerHandler.first_by_question_index tl with
    | none =>
      rw [hm] at h
      dsimp only at h
      have htl : tl = [] := first_by_question_index_eq_none tl hm
      subst htl
      cases h
      exact ⟨List.mem_singleton.mpr rfl, by intro x hx; rw [List.mem_singleton.mp hx]⟩
    | some m =>
      rw [hm] at h
      dsimp only at h
      obtain ⟨hmem, hmin⟩ := ih m hm
      by_cases hle : hd.question_index ≤ m.question_index
      · rw [if_pos hle] at h
        cases h
        refine ⟨List.mem_cons_self _ _, ?_⟩
        intro x hx
        rcases List.mem_cons.mp hx with hx | hx
        · rw [hx]
        · exact le_trans hle (hmin x hx)
      · rw [if_neg hle] at h
        cases h
        refine ⟨List.mem_cons_of_mem _ hmem, ?_⟩
        intro x hx
        rcases List.mem_cons.mp hx with hx | hx
        · rw [hx]; exact le_of_not_le hle
        · exact hmin x hx

/-- C8: for an existing round (whose question indices are unique within a
round), `get_current_question` returns the question at
`current_question_index` when that one is unanswered; when the question at
that index is answered it returns the lowest-indexed unanswered question of
the round; and when every question of the round is answered it returns
`none` as a normal result. -/
theorem C8_get_current_question_selection (st : Store) (round_id : String)
    (round_obj : Round)
    (hround : RoundService.get_round st round_id = some round_obj)
    (huniq : ∀ q1 ∈ st.question_answers, ∀ q2 ∈ st.question_answers,
      q1.round_id = q2.round_id → q1.question_index = q2.question_index → q1 = q2) :
    (∀ qa ∈ st.question_answers, qa.round_id = round_obj.id →
      qa.question_index = round_obj.current_question_index → qa.is_answered = false →
      (AnswerHandler.get_current_question st round_id).map
        AnswerHandler.QuestionData.qa_id = some qa.id) ∧
    ((∀ q ∈ st.question_answers, q.round_id = round_obj.id →
        q.question_index = round_obj.current_question_index → q.is_answered = true) →
      ∀ u ∈ st.question_answers, u.round_id = round_obj.id → u.is_answered = false →
        (∀ v ∈ st.question_answers, v.round_id = round_obj.id → v.is_answered = false →
          u.question_index ≤ v.question_index) →
        (AnswerHandler.get_current_question st round_id).map
          AnswerHandler.QuestionData.qa_id = some u.id) ∧
    ((∀ q ∈ st.question_answers, q.round_id = round_obj.id → q.is_answered = true) →
      AnswerHandler.get_current_question st round_id = none) := by
  refine ⟨?_, ?_, fun hall => get_current_question_all_answered st round_id round_obj hround hall⟩
  · intro qa hmem hrid hidx hunans
    have hpred : (fun q => q.round_id == round_obj.id &&
        q.question_index == round_obj.current_question_index && !q.is_answered) qa = true := by
      simp [hrid, hidx, hunans]
    have hsome : (st.question_answers.find? (fun q => q.round_id == round_obj.id &&
        q.question_index == round_obj.current_question_index && !q.is_answered)).isSome := by
      rw [List.find?_isSome]
      exact ⟨qa, hmem, hpred⟩
    obtain ⟨x, hx⟩ := Option.isSome_iff_exists.mp hsome
    have hxmem := List.mem_of_find?_eq_some hx
    have hxpred := List.find?_some hx
    simp only [Bool.and_eq_true, beq_iff_eq, Bool.not_eq_eq_eq_not, Bool.not_true] at hxpred
    have hxeq : x = qa := huniq x hxmem qa hmem (hxpred.1.1.trans hrid.symm)
      (hxpred.1.2.trans hidx.symm)
    unfold AnswerHandler.get_current_question
    rw [hround]
    simp only [hx, hxeq]
    rfl
  · intro hans u hmem hrid hunans hmin
    have hcursor : st.question_answers.find?
        (fun q => q.round_id == round_obj.id &&
          q.question_index == round_obj.current_question_index && !q.is_answered) = none := by
      rw [List.find?_eq_none]
      intro q hq
      by_cases hr : q.round_id = round_obj.id
      · by_cases hi : q.question_index = round_obj.current_question_index
        · simp [hans q hq hr hi]
        · simp [hi]
      · simp [hr]
    have humem : u ∈ st.question_answers.filter
        (fun q => q.round_id == round_obj.id && !q.is_answered) := by
      rw [List.mem_filter]
      exact ⟨hmem, by simp [hrid, hunans]⟩
    cases hfb : AnswerHandler.first_by_question_index
        (st.question_answers.filter (fun q => q.round_id == round_obj.id && !q.is_answered)) with
    | none =>
      have := first_by_question_index_eq_none _ hfb
      rw [this] at humem
      cases humem
    | some m =>
      obtain ⟨hmmem, hmmin⟩ := first_by_question_index_spec _ m hfb
      have hmfilter := List.mem_filter.mp hmmem
      have hmprop := hmfilter.2
      simp only [Bool.and_eq_true, beq_iff_eq, Bool.not_eq_eq_eq_not, Bool.not_true] at hmprop
      have hle1 : m.question_index ≤ u.question_index := hmmin u humem
      have hle2 : u.question_index ≤ m.question_index :=
        hmin m hmfilter.1 hmprop.1 hmprop.2
      have hmeq : m = u := huniq m hmfilter.1 u hmem (hmprop.1.trans hrid.symm)
        (le_antisymm hle1 hle2)
      unfold AnswerHandler.get_current_question
      rw [hround]
      simp only [hcursor, hfb, hmeq]
      rfl

/-- Witness for C8 at the concrete store: the unanswered question at the
cursor (`q0`) is returned. -/
theorem C8_get_current_question_selection_witness :
    (AnswerHandler.get_current_question store1 "r0").map
      AnswerHandler.QuestionData.qa_id = some "q0" :=
  (C8_get_current_question_selection store1 "r0" rnd0 rfl
      (by decide)).1 qa0 (by decide) rfl rfl rfl

/-! ### C5 amended -/

/-- A row that is untouched by `save_row` stays in the list. -/
theorem mem_save_row_of_ne {α : Type} (key : α → String) (k : String) (r' : α)
    (l : List α) (r : α) (hr : r ∈ l) (hne : (key r == k) = false) :
    r ∈ save_row key k r' l := by
  unfold save_row
  exact List.mem_map.mpr ⟨r, hr, by rw [if_neg (by simp_all)]⟩

/-- C5 amended: `save_answer` never changes any session's status, even when
it completes the last round of a session; the cascade to
`Session.status = "completed"` happens only in `confirm_qa_completion`, and
only when that call itself flips a not-yet-completed round after which no
round of the session is left non-completed; if another round is still
non-completed the sessions table is unchanged, and if the target round was
already completed (e.g. by `save_answer`) the whole store is unchanged, so
the session is never completed on that path. -/
theorem C5_session_completed_only_via_confirm :
    (∀ st qa_id ans, (AnswerHandler.save_answer st qa_id ans).2.sessions = st.sessions) ∧
    (∀ st sid idx session_obj round_obj,
      SessionService.get_session st sid = some session_obj →
      st.rounds.find? (fun r => r.session_id == session_obj.id && r.round_index == idx)
        = some round_obj →
      (st.rooms.find? (fun r => r.id == session_obj.room_id)).isSome = true →
      round_obj.status ≠ "completed" →
      session_obj.status ≠ "completed" →
      (∀ r ∈ st.rounds, r.session_id = session_obj.id → r.id ≠ round_obj.id →
        r.status = "completed") →
      (QuestionController.confirm_qa_completion st sid idx true).2.sessions
        = save_row Session.id session_obj.id
            ({ session_obj with status := "completed" }) st.sessions) ∧
    (∀ st sid idx session_obj round_obj r',
      SessionService.get_session st sid = some session_obj →
      st.rounds.find? (fun r => r.session_id == session_obj.id && r.round_index == idx)
        = some round_obj →
      (st.rooms.find? (fun r => r.id == session_obj.room_id)).isSome = true →
      r' ∈ st.rounds → r'.session_id = session_obj.id → r'.id ≠ round_obj.id →
      r'.status ≠ "completed" →
      (QuestionController.confirm_qa_completion st sid idx true).2.sessions = st.sessions) ∧
    (∀ st sid idx session_obj round_obj,
      SessionService.get_session st sid = some session_obj →
      st.rounds.find? (fun r => r.session_id == session_obj.id && r.round_index == idx)
        = some round_obj →
      (st.rooms.find? (fun r => r.id == session_obj.room_id)).isSome = true →
      round_obj.status = "completed" →
      (QuestionController.confirm_qa_completion st sid idx true).2 = st) := by
  refine ⟨?_, ?_, ?_, ?_⟩
  · intro st qa_id ans
    unfold AnswerHandler.save_answer
    split
    · rfl
    · dsimp only
      split
      · rfl
      · split <;> rfl
  · intro st sid idx session_obj round_obj hsess hround hroom hrstat hsstat hrest
    obtain ⟨room, hroomeq⟩ := Option.isSome_iff_exists.mp hroom
    have hactive : (save_row Round.id round_obj.id
        ({ round_obj with status := "completed" }) st.rounds).any
        (fun r => r.session_id == session_obj.id && r.status != "completed") = false := by
      rw [List.any_eq_false]
      intro r hr
      rcases mem_save_row _ _ _ _ _ hr with h1 | ⟨h2, hne⟩
      · subst h1; simp
      · simp only [Bool.and_eq_true, beq_iff_eq, bne_iff_ne, ne_eq, not_and]
        intro hrsid
        have := hrest r h2 hrsid (by simpa using hne)
        simp [this]
    unfold QuestionController.confirm_qa_completion
    simp only [hsess, hround, hroomeq]
    rw [if_neg (by simp)]
    rw [if_pos (bne_iff_ne.mpr hrstat)]
    simp only [hactive, Bool.not_false, Bool.true_and]
    rw [if_pos (bne_iff_ne.mpr hsstat)]
  · intro st sid idx session_obj round_obj r' hsess hround hroom hr'mem hr'sid hr'ne hr'stat
    obtain ⟨room, hroomeq⟩ := Option.isSome_iff_exists.mp hroom
    unfold QuestionController.confirm_qa_completion
    simp only [hsess, hround, hroomeq]
    rw [if_neg (by simp)]
    by_cases hrstat : round_obj.status = "completed"
    · rw [if_neg (by simp [hrstat])]
    · rw [if_pos (bne_iff_ne.mpr hrstat)]
      have hactive : (save_row Round.id round_obj.id
          ({ round_obj with status := "completed" }) st.rounds).any
          (fun r => r.session_id == session_obj.id && r.status != "completed") = true := by
        rw [List.any_eq_true]
        refine ⟨r', mem_save_row_of_ne _ _ _ _ _ hr'mem (by simp [hr'ne]), ?_⟩
        simp [hr'sid, hr'stat]
      simp only [hactive, Bool.not_true, Bool.false_and, Bool.false_eq_true, if_false,
        ite_false]
  · intro st sid idx session_obj round_obj hsess hround hroom hrstat
    obtain ⟨room, hroomeq⟩ := Option.isSome_iff_exists.mp hroom
    unfold QuestionController.confirm_qa_completion
    simp only [hsess, hround, hroomeq]
    rw [if_neg (by simp)]
    rw [if_neg (by simp [hrstat])]

/-- Witness for the amended C5: confirming round 0 of the concrete
single-round store flips the session to "completed". -/
theorem C5_session_completed_only_via_confirm_witness :
    (QuestionController.confirm_qa_completion store1 "S1" 0 true).2.sessions
      = save_row Session.id sess1.id ({ sess1 with status := "completed" }) store1.sessions :=
  C5_session_completed_only_via_confirm.2.1 store1 "S1" 0 sess1 rnd0 rfl rfl
    (by decide) (by decide) (by decide) (by decide)

/-! ### C1 -/

/-- C1: a webhook call that passes the structural validation, the signature
check, and the session/room/round existence checks, and for which a
RoundCompletion already exists under the payload's idempotency_key — or,
failing that, under the same (Session, round_index) even with a different
key — returns success carrying the existing completion's id and leaves the
store completely unchanged (no new row, no status side effects). -/
theorem C1_webhook_idempotency_short_circuit
    (hm : String → String → String) (parse_iso : String → Bool)
    (secret : Option String) (req : WebhookRequest) (kvs : List (String × JVal))
    (new_id : String) (st : Store) (idx : Int) (key occ sid : String)
    (session : Session) (room : Room) (round_obj : Round) (c : RoundCompletion)
    (hmiss : ApiController.required_fields.filter (fun f => (pget kvs f).isNone) = [])
    (hsig : verify_signature hm secret req = true)
    (hint : pyInt ((pget kvs "round_index").getD JVal.null) = some idx)
    (hqa : is_dict_or_list ((pget kvs "qa_object").getD JVal.null) = true)
    (hkey : (pget kvs "idempotency_key").getD JVal.null = JVal.s key)
    (hkeyne : (py_strip key == "") = false)
    (hocc : (pget kvs "occurred_at").getD JVal.null = JVal.s occ)
    (hparse : parse_iso (occ.replace "Z" "+00:00") = true)
    (hsid : pyStr ((pget kvs "session_id").getD JVal.null) = sid)
    (hsess : SessionService.get_session st sid = some session)
    (hroomeq : st.rooms.find? (fun r => r.id == session.room_id) = some room)
    (hmatch : (room.id != pyStr ((pget kvs "room_id").getD JVal.null)) = false)
    (hround : RoundCompletionService.get_round_by_session_and_index st sid idx
      = some round_obj)
    (hex : RoundCompletionService.get_by_idempotency st key = some c ∨
      (RoundCompletionService.get_by_idempotency st key = none ∧
       RoundCompletionService.get_by_session_and_index st session.id idx = some c)) :
    ApiController.complete_round_webhook hm parse_iso secret req
        (some (JVal.obj kvs)) new_id st = (.already_processed c.id, st) := by
  unfold ApiController.complete_round_webhook
  simp only [hmiss, hsig, hint, hqa, hkey, hkeyne, hocc, hparse, hsid, hsess,
    hroomeq, hmatch, hround, ne_eq, not_true_eq_false, Bool.not_true,
    Bool.false_eq_true, if_false, ite_false, Bool.not_false, ite_true, if_true]
  rcases hex with hfound | ⟨hnone, hpair⟩
  · simp only [hfound]
  · simp only [hnone, hpair]

/-- Witness for C1: with completion `comp1` already on file for key "k1"
and (S1, 0), a fully valid, correctly signed webhook call answers success
with `comp1`'s id and leaves the store unchanged. -/
theorem C1_webhook_idempotency_short_circuit_witness :
    ApiController.complete_round_webhook hm0 parse_true (some "sec") req_ok
      (some pl_full) "c-new" store1c = (.already_processed "c1", store1c) :=
  C1_webhook_idempotency_short_circuit hm0 parse_true (some "sec") req_ok kvs_full
    "c-new" store1c 0 "k1" "2024-01-01T00:00:00Z" "S1" sess1 room1 rnd0 comp1
    (by decide) (by decide) rfl (by decide) rfl (by decide) rfl rfl rfl rfl rfl
    (by decide) rfl (Or.inl rfl)

/-! ### C7 amended -/

/-- The `round_index` values of a session's rounds, in table order. -/
def round_indices (st : Store) (sid : String) : List Nat :=
  (st.rounds.filter (fun r => r.session_id == sid)).map (fun r => r.round_index)

/-- Every session's round indices are exactly `0, …, N−1`, in creation
order. -/
def DenseIndices (st : Store) : Prop :=
  ∀ sid, round_indices st sid = List.range (round_indices st sid).length

/-- A sequence of `create_round` calls:
`(session_id, (questions, (round_type, new_id)))` each. -/
def apply_creates (st : Store) : List (String × List String × String × String) → Store
  | [] => st
  | cmd :: rest =>
    apply_creates (RoundService.create_round st cmd.1 cmd.2.1 cmd.2.2.1 cmd.2.2.2).2 rest

/-- One `create_round` preserves density of every session's indices. -/
theorem create_round_dense (st : Store) (sid : String) (qs : List String)
    (rt nid : String) (h : DenseIndices st) :
    DenseIndices (RoundService.create_round st sid qs rt nid).2 := by
  intro sid'
  unfold RoundService.create_round
  cases hs : SessionService.get_session st sid with
  | none => exact h sid'
  | some session =>
    dsimp only
    unfold round_indices
    rw [List.filter_append, List.map_append]
    by_cases heq : session.id = sid'
    · subst heq
      rw [List.filter_singleton]
      simp only [beq_self_eq_true, cond_true, List.map_cons, List.map_nil]
      have hold := h session.id
      unfold round_indices at hold
      have hn : (st.rounds.filter (fun r => r.session_id == session.id)).length
          = ((st.rounds.filter (fun r => r.session_id == session.id)).map
              (fun r => r.round_index)).length := (List.length_map _ _).symm
      rw [hn, List.length_append, List.length_singleton, List.range_succ, ← hold]
    · have hcond : (session.id == sid') = false := by simp [heq]
      rw [List.filter_singleton]
      simp only [hcond, cond_false, List.map_nil, List.append_nil]
      exact h sid'

/-- C7 amended: `create_round` assigns the new round's index as the current
round count of its session, and any sequence of round creations (with no
interleaved deletions) keeps every session's indices exactly
`{0, …, N−1}`; a deletion followed by a creation, however, can hand an
existing index out again (see the counterexample). -/
theorem C7_round_index_density_without_deletion :
    (∀ st sid qs rt nid session,
      SessionService.get_session st sid = some session →
      ((RoundService.create_round st sid qs rt nid).1).map Round.round_index
        = some ((st.rounds.filter (fun x => x.session_id == session.id)).length)) ∧
    (∀ st cmds, DenseIndices st → DenseIndices (apply_creates st cmds)) := by
  constructor
  · intro st sid qs rt nid session hs
    unfold RoundService.create_round
    rw [hs]
    rfl
  · intro st cmds
    induction cmds generalizing st with
    | nil => exact fun h => h
    | cons hd tl ih =>
      intro h
      exact ih _ (create_round_dense _ _ _ _ _ h)

/-- Witness for the amended C7: creating two further rounds in the concrete
one-round store leaves session S1 with the dense index list `[0, 1, 2]`. -/
theorem C7_round_index_density_without_deletion_witness :
    round_indices (apply_creates store1
        [("S1", (["x"], ("t", "rA"))), ("S1", (["y"], ("t", "rB")))]) "S1"
      = List.range (round_indices (apply_creates store1
        [("S1", (["x"], ("t", "rA"))), ("S1", (["y"], ("t", "rB")))]) "S1").length :=
  C7_round_index_density_without_deletion.2 store1
    [("S1", (["x"], ("t", "rA"))), ("S1", (["y"], ("t", "rB")))]
    (by
      intro sid
      by_cases hc : ("S1" : String) = sid
      · subst hc; decide
      · unfold round_indices store1 rnd0
        rw [List.filter_singleton]
        have hcond : (("S1" : String) == sid) = false := by simp [hc]
        simp only [hcond, cond_false, List.map_nil]
        rfl) "S1"

/-! ### C2 -/

/-- Two completion rows that collide on neither uniqueness constraint. -/
def CompletionDistinct (c1 c2 : RoundCompletion) : Prop :=
  c1.idempotency_key ≠ c2.idempotency_key ∧
    (c1.session_id ≠ c2.session_id ∨ c1.round_index ≠ c2.round_index)

/-- The RoundCompletion table invariant: pairwise, no shared
idempotency_key and no shared (session, round_index). -/
def UniqueCompletions (st : Store) : Prop :=
  st.completions.Pairwise CompletionDistinct

theorem completionDistinct_symm : Symmetric CompletionDistinct := by
  intro c1 c2 h
  exact ⟨h.1.symm, h.2.imp Ne.symm Ne.symm⟩

/-- `create_session` never touches the completions table. -/
theorem create_session_completions (st : Store) (rid name nid : String) :
    (SessionService.create_session st rid name nid).2.completions = st.completions := by
  unfold SessionService.create_session
  split <;> rfl

/-- `update_session_status` never touches the completions table. -/
theorem update_session_status_completions (st : Store) (sid status : String) :
    (SessionService.update_session_status st sid status).2.completions = st.completions := by
  unfold SessionService.update_session_status
  split <;> rfl

/-- `create_round` never touches the completions table. -/
theorem create_round_completions (st : Store) (sid : String) (qs : List String)
    (rt nid : String) :
    (RoundService.create_round st sid qs rt nid).2.completions = st.completions := by
  unfold RoundService.create_round
  split <;> rfl

/-- `save_answer` never touches the completions table. -/
theorem save_answer_completions (st : Store) (qa ans : String) :
    (AnswerHandler.save_answer st qa ans).2.completions = st.completions := by
  unfold AnswerHandler.save_answer
  split
  · rfl
  · dsimp only
    split
    · rfl
    · split <;> rfl

/-- `confirm_qa_completion` never touches the completions table. -/
theorem confirm_qa_completion_completions (st : Store) (sid : String) (idx : Nat)
    (ex : Bool) :
    (QuestionController.confirm_qa_completion st sid idx ex).2.completions
      = st.completions := by
  unfold QuestionController.confirm_qa_completion
  split
  · rfl
  · split
    · rfl
    · split
      · rfl
      · dsimp only
        split
        · rfl
        · split
          · split <;> rfl
          · rfl

/-- A successful storage-layer insert preserves the table invariant: the
inserted row was checked by the store against both constraints. -/
theorem insert_completion_unique (st : Store) (c : RoundCompletion) (st' : Store)
    (h : RoundCompletionService.insert_completion st c = some st')
    (hu : UniqueCompletions st) : UniqueCompletions st' := by
  unfold RoundCompletionService.insert_completion at h
  by_cases h1 : st.completions.any
      (fun c0 => c0.idempotency_key == c.idempotency_key) = true
  · rw [if_pos h1] at h; cases h
  · rw [if_neg h1] at h
    by_cases h2 : st.completions.any
        (fun c0 => c0.session_id == c.session_id && c0.round_index == c.round_index) = true
    · rw [if_pos h2] at h; cases h
    · rw [if_neg h2] at h
      injection h with h
      subst h
      unfold UniqueCompletions
      refine List.pairwise_append.mpr ⟨hu, List.pairwise_singleton _ _, ?_⟩
      intro a ha b hb
      rw [List.mem_singleton] at hb
      rw [hb]
      have g1 := List.any_eq_false.mp (Bool.eq_false_iff.mpr h1) a ha
      have g2 := List.any_eq_false.mp (Bool.eq_false_iff.mpr h2) a ha
      simp only [beq_iff_eq] at g1
      simp only [Bool.and_eq_true, beq_iff_eq, not_and] at g2
      refine ⟨g1, ?_⟩
      by_cases hs : a.session_id = c.session_id
      · exact Or.inr (g2 hs)
      · exact Or.inl hs

/-- `record_completion` preserves the table invariant: its only write to the
completions table goes through the storage-layer insert. -/
theorem record_completion_unique (st : Store) (session : Session) (idx : Int)
    (qa : JVal) (occ key : String) (robj : Round) (nid : String)
    (hu : UniqueCompletions st) :
    UniqueCompletions
      (RoundCompletionService.record_completion st session idx qa occ key robj nid).2 := by
  cases hins : RoundCompletionService.insert_completion st
      { id := nid, session_id := session.id, round_index := idx,
        idempotency_key := key, qa_object := qa, occurred_at := occ } with
  | none =>
    have hc : (RoundCompletionService.record_completion
        st session idx qa occ key robj nid).2.completions = st.completions := by
      unfold RoundCompletionService.record_completion
      dsimp only
      rw [hins]
      dsimp only
      split
      · rfl
      · split <;> rfl
    unfold UniqueCompletions
    rw [hc]
    exact hu
  | some st1 =>
    have hc : (RoundCompletionService.record_completion
        st session idx qa occ key robj nid).2.completions = st1.completions := by
      unfold RoundCompletionService.record_completion
      dsimp only
      rw [hins]
      dsimp only
      rw [apply_ite Store.completions]
      dsimp only
      rw [ite_self]
    unfold UniqueCompletions
    rw [hc]
    exact insert_completion_unique st _ st1 hins hu

/-- `complete_round_webhook` preserves the table invariant in every branch. -/
theorem complete_round_webhook_unique (hm : String → String → String)
    (parse_iso : String → Bool) (sec : Option String) (req : WebhookRequest)
    (pl : Option JVal) (nid : String) (st : Store) (hu : UniqueCompletions st) :
    UniqueCompletions
      (ApiController.complete_round_webhook hm parse_iso sec req pl nid st).2 := by
  unfold ApiController.complete_round_webhook
  repeat' first
    | exact hu
    | exact record_completion_unique _ _ _ _ _ _ _ _ hu
    | split
    | dsimp only

/-- One operation of the core, as offered by the services and controllers. -/
inductive Step : Store → Store → Prop where
  | create_room (st : Store) (nid mid name : String) :
      Step st (RoomService.create_room st nid mid name).2
  | create_session (st : Store) (rid name nid : String) :
      Step st (SessionService.create_session st rid name nid).2
  | update_session_status (st : Store) (sid status : String) :
      Step st (SessionService.update_session_status st sid status).2
  | create_round (st : Store) (sid : String) (qs : List String) (rt nid : String) :
      Step st (RoundService.create_round st sid qs rt nid).2
  | create_question_answer (st : Store) (nid rid : String) (qi : Nat) (txt : String)
      (cat : Option String) :
      Step st (AnswerHandler.create_question_answer st nid rid qi txt cat)
  | save_answer (st : Store) (qa ans : String) :
      Step st (AnswerHandler.save_answer st qa ans).2
  | delete_round (st : Store) (rid : String) :
      Step st (RoundService.delete_round st rid).2
  | delete_session (st : Store) (sid : String) :
      Step st (SessionService.delete_session st sid).2
  | delete_room (st : Store) (rid : String) :
      Step st (RoomService.delete_room st rid).2
  | confirm_qa_completion (st : Store) (sid : String) (idx : Nat) (ex : Bool) :
      Step st (QuestionController.confirm_qa_completion st sid idx ex).2
  | complete_round_webhook (st : Store) (hm : String → String → String)
      (parse_iso : String → Bool) (sec : Option String) (req : WebhookRequest)
      (pl : Option JVal) (nid : String) :
      Step st (ApiController.complete_round_webhook hm parse_iso sec req pl nid st).2

/-- The stores reachable from the freshly created database by the core's
operations. -/
inductive Reaches : Store → Prop where
  | init : Reaches init_store
  | step {st st' : Store} : Reaches st → Step st st' → Reaches st'

/-- C2: at every reachable store there is at most one RoundCompletion per
idempotency_key and at most one per (Session, round_index); and the bounds
are enforced by the storage layer itself — an insert that collides with an
existing row on either constraint is refused by `insert_completion`
regardless of any application-code check before it. -/
theorem C2_completion_uniqueness :
    (∀ st, Reaches st → UniqueCompletions st) ∧
    (∀ st c c0, c0 ∈ st.completions →
      (c0.idempotency_key = c.idempotency_key ∨
        (c0.session_id = c.session_id ∧ c0.round_index = c.round_index)) →
      RoundCompletionService.insert_completion st c = none) ∧
    (∀ st, Reaches st → ∀ c1 ∈ st.completions, ∀ c2 ∈ st.completions,
      (c1.idempotency_key = c2.idempotency_key ∨
        (c1.session_id = c2.session_id ∧ c1.round_index = c2.round_index)) →
      c1 = c2) := by
  have main : ∀ st, Reaches st → UniqueCompletions st := by
    intro st h
    induction h with
    | init => exact List.Pairwise.nil
    | step hr hs ih =>
      cases hs with
      | create_room nid mid name => exact ih
      | create_session rid name nid =>
        unfold UniqueCompletions
        rw [create_session_completions]
        exact ih
      | update_session_status sid status =>
        unfold UniqueCompletions
        rw [update_session_status_completions]
        exact ih
      | create_round sid qs rt nid =>
        unfold UniqueCompletions
        rw [create_round_completions]
        exact ih
      | create_question_answer nid rid qi txt cat => exact ih
      | save_answer qa ans =>
        unfold UniqueCompletions
        rw [save_answer_completions]
        exact ih
      | delete_round rid =>
        unfold UniqueCompletions
        rw [(delete_round_frame _ rid).2.2.2]
        exact ih
      | delete_session sid =>
        unfold UniqueCompletions
        rw [(delete_session_frame _ sid).2.2]
        exact ih
      | delete_room rid =>
        unfold UniqueCompletions
        rw [(delete_room_frame _ rid).2]
        exact ih
      | confirm_qa_completion sid idx ex =>
        unfold UniqueCompletions
        rw [confirm_qa_completion_completions]
        exact ih
      | complete_round_webhook hm parse_iso sec req pl nid =>
        exact complete_round_webhook_unique hm parse_iso sec req pl nid _ ih
  refine ⟨main, ?_, ?_⟩
  · intro st c c0 hmem hcol
    unfold RoundCompletionService.insert_completion
    rcases hcol with hk | ⟨hs, hi⟩
    · rw [if_pos (List.any_eq_true.mpr ⟨c0, hmem, by simp [hk]⟩)]
    · by_cases h1 : st.completions.any
          (fun x => x.idempotency_key == c.idempotency_key) = true
      · rw [if_pos h1]
      · rw [if_neg h1,
          if_pos (List.any_eq_true.mpr ⟨c0, hmem, by simp [hs, hi]⟩)]
  · intro st hr c1 h1 c2 h2 hrel
    by_contra hne
    have hR := List.Pairwise.forall completionDistinct_symm (main st hr) h1 h2 hne
    rcases hrel with hk | ⟨hs, hi⟩
    · exact hR.1 hk
    · rcases hR.2 with h | h
      · exact h hs
      · exact h hi

/-- Witness for C2: the initial store satisfies the invariant, and the
storage layer refuses a fresh row that reuses `comp1`'s idempotency_key even
under a different id and round_index. -/
theorem C2_completion_uniqueness_witness :
    UniqueCompletions init_store ∧
    RoundCompletionService.insert_completion store1c
      ({ comp1 with id := "c2", round_index := 7 }) = none :=
  ⟨C2_completion_uniqueness.1 init_store Reaches.init,
   C2_completion_uniqueness.2.1 store1c ({ comp1 with id := "c2", round_index := 7 })
     comp1 (List.mem_singleton.mpr rfl) (Or.inl rfl)⟩

end Interviewer
